import Mathlib

/-!
The Go backend of grpc-go-nestjs-demo.

A shallow embedding of the two Go source files of the backend:

* `internal/services/summ/summ.service.go` : the `summService` type, its `Sum`
  handler and `Init`;
* `cmd/api/main.go` : the bootstrap `main` with its `panicHandler` closure and
  the interceptor chain handed to `grpc.NewServer`.

Go values are embedded as follows.  An `int64` is an `Int` in the range
`[-2^63, 2^63)` and `+` on `int64` is addition followed by `wrapInt64`.  A Go
pointer is an `Option` (`none` is `nil`).  A Go call either returns or panics,
which is the type `Outcome`.  The effects of `main` (log lines, library calls,
process exit) are recorded as a list of `Event`s, and the two results `main`
branches on (`net.Listen`, `server.Serve`) are supplied by an `Env`.
-/

namespace GrpcDemo

/-! ## Go values -/

/-- Lower bound of `int64`. -/
def minInt64 : Int := -(2 ^ 63)

/-- Upper bound of `int64`. -/
def maxInt64 : Int := 2 ^ 63 - 1

/-- Range predicate of `int64`. -/
def isInt64 (x : Int) : Prop := minInt64 ≤ x ∧ x ≤ maxInt64

instance (x : Int) : Decidable (isInt64 x) := by
  unfold isInt64; exact inferInstance

/-- Two's-complement reduction of a mathematical integer to `int64`. -/
def wrapInt64 (x : Int) : Int := (x + 2 ^ 63) % 2 ^ 64 - 2 ^ 63

/-- Go `a + b` on `int64` operands. -/
def addInt64 (a b : Int) : Int := wrapInt64 (a + b)

/-- A dynamically typed Go value (`interface{}`), as far as the program
produces or inspects one: the non-nil payload of a panic. -/
inductive Any where
  | str (s : String)
  | int (i : Int)
  | runtimeError (msg : String)
  deriving DecidableEq, Repr

/-- The payload of the run-time panic raised by dereferencing a nil pointer. -/
def nilDereference : Any :=
  Any.runtimeError "invalid memory address or nil pointer dereference"

/-- A Go call either returns a value or panics with a payload. -/
inductive Outcome (α : Type) where
  | returned (v : α)
  | panicked (p : Any)
  deriving DecidableEq, Repr

/-- The values carried by a `context.Context`. -/
abbrev Context := List String

/-! ## gRPC status codes and errors (`google.golang.org/grpc/codes`, `status`) -/

/-- The gRPC status codes of package `codes`, in numeric order. -/
inductive Code where
  | OK | Canceled | Unknown | InvalidArgument | DeadlineExceeded | NotFound
  | AlreadyExists | PermissionDenied | ResourceExhausted | FailedPrecondition
  | Aborted | OutOfRange | Unimplemented | Internal | Unavailable | DataLoss
  | Unauthenticated
  deriving DecidableEq, Repr

/-- A non-nil Go `error`: either one that carries a gRPC status, or any other
error value. -/
inductive Err where
  | status (code : Code) (message : String)
  | other (message : String)
  deriving DecidableEq, Repr

/-- The function `status.Errorf(c, format)` called without format arguments on
a format free of verbs: `nil` for `codes.OK`, otherwise a status error with
code `c` and the format as message. -/
def statusErrorf (c : Code) (format : String) : Option Err :=
  if c = Code.OK then none else some (Err.status c format)

/-- The function `status.Code(err)`: `OK` for a nil error, the carried code
for a status error, `Unknown` for any other error. -/
def statusCode : Option Err → Code
  | none => Code.OK
  | some (Err.status c _) => c
  | some (Err.other _) => Code.Unknown

/-! ## The Sum service (`summ.service.go`) -/

/-- Modelled from the spec: the generated message type `summv1.SumRequest`
(package `main/protos/gen/summ/v1`) is absent from the sources; the spec gives
it two numeric `int64` operand fields, read by the handler as `A` and `B`. -/
structure SumRequest where
  A : Int
  B : Int
  deriving DecidableEq, Repr

/-- Modelled from the spec: the generated message type `summv1.SumResponse` is
absent from the sources; the spec gives it one numeric `int64` field, written
by the handler as `Result`. -/
structure SumResponse where
  Result : Int
  deriving DecidableEq, Repr

/-- Modelled from the spec: the generated type
`summv1.UnimplementedSummServiceServer` is absent from the sources; the spec
describes it as what is required to satisfy the registration interface, and it
carries no data. -/
structure UnimplementedSummServiceServer where
  deriving DecidableEq, Repr

/-- The type `summService`: a struct whose only member is the embedded
`summv1.UnimplementedSummServiceServer`. -/
structure summService where
  UnimplementedSummServiceServer : UnimplementedSummServiceServer
  deriving DecidableEq, Repr

/-- What a unary handler returns: the pair `(response, error)`, each of which
may be nil. -/
abbrev Reply (ρ : Type) := Option ρ × Option Err

/-- The method `(s *summService) Sum(ctx, params)`.  The receiver and the
context are not used.  Reading `params.A` dereferences `params`, which panics
when the pointer is nil; otherwise the method returns the address of a fresh
`SumResponse` whose `Result` is `params.A + params.B`, and a nil error. -/
def summService.Sum (_s : Option summService) (_ctx : Context)
    (params : Option SumRequest) : Outcome (Reply SumResponse) :=
  match params with
  | none => Outcome.panicked nilDereference
  | some p => Outcome.returned (some { Result := addInt64 p.A p.B }, none)

/-! ## Logging (`go.uber.org/zap`) -/

/-- The severity levels of zap. -/
inductive Level where
  | Debug | Info | Warn | Error | DPanic | Panic | Fatal
  deriving DecidableEq, Repr

/-- A structured field attached to a log entry, by the constructor used at
the call site (`zap.Any`, `zap.Error`, `zap.String`). -/
inductive Field where
  | any (key : String) (value : Any)
  | error (err : Err)
  | string (key : String) (value : String)
  deriving DecidableEq, Repr

/-- One structured log line. -/
structure Entry where
  level : Level
  msg : String
  fields : List Field
  deriving DecidableEq, Repr

/-- The result of running a piece of Go code that may write log lines: the
lines written, in order, and how the code ended. -/
structure Run (α : Type) where
  log : List Entry
  out : Outcome α

/-! ## gRPC server and middleware, as far as `main.go` configures them -/

/-- The type `grpc.UnaryHandler`, for the calls of the one registered service. -/
abbrev UnaryHandler := Context → Option SumRequest → Run (Reply SumResponse)

/-- The type `grpc.UnaryServerInfo`. -/
structure UnaryServerInfo where
  FullMethod : String
  deriving DecidableEq, Repr

/-- The type `grpc.UnaryServerInterceptor`. -/
abbrev UnaryServerInterceptor :=
  Context → Option SumRequest → UnaryServerInfo → UnaryHandler → Run (Reply SumResponse)

/-- The type `grpc_recovery.RecoveryHandlerFuncContext`: it may log and
returns the error handed to the caller. -/
abbrev RecoveryHandlerFuncContext := Context → Any → List Entry × Option Err

/-- The method `Code.String`. -/
def Code.String : Code → String
  | .OK => "OK"
  | .Canceled => "Canceled"
  | .Unknown => "Unknown"
  | .InvalidArgument => "InvalidArgument"
  | .DeadlineExceeded => "DeadlineExceeded"
  | .NotFound => "NotFound"
  | .AlreadyExists => "AlreadyExists"
  | .PermissionDenied => "PermissionDenied"
  | .ResourceExhausted => "ResourceExhausted"
  | .FailedPrecondition => "FailedPrecondition"
  | .Aborted => "Aborted"
  | .OutOfRange => "OutOfRange"
  | .Unimplemented => "Unimplemented"
  | .Internal => "Internal"
  | .Unavailable => "Unavailable"
  | .DataLoss => "DataLoss"
  | .Unauthenticated => "Unauthenticated"

/-- The function `grpc_zap.DefaultCodeToLevel`. -/
def DefaultCodeToLevel : Code → Level
  | .OK | .Canceled | .InvalidArgument | .NotFound | .AlreadyExists
  | .Unauthenticated => Level.Info
  | .DeadlineExceeded | .PermissionDenied | .ResourceExhausted
  | .FailedPrecondition | .Aborted | .OutOfRange | .Unavailable => Level.Warn
  | .Unknown | .Unimplemented | .Internal | .DataLoss => Level.Error

/-- Formatting of a panic payload with the verb `%v`. -/
def formatAny : Any → String
  | .str s => s
  | .int i => toString i
  | .runtimeError msg => "runtime error: " ++ msg

/-- The context handed down by the logging interceptor: the incoming context
extended with the call-scoped logger (`newLoggerForCall`). -/
def newLoggerForCall (ctx : Context) (info : UnaryServerInfo) : Context :=
  ("ctxzap:" ++ info.FullMethod) :: ctx

/-- The line written by the logging interceptor when a call has finished
(default options; the duration field is a clock reading and is left out). -/
def finishedEntry (err : Option Err) : Entry :=
  let code := statusCode err
  { level := DefaultCodeToLevel code
    msg := "finished unary call with code " ++ code.String
    fields := (match err with
               | none => []
               | some e => [Field.error e]) ++ [Field.string "grpc.code" code.String] }

/-- The interceptor `grpc_zap.UnaryServerInterceptor(logger)` with default
options: it calls the handler with the call-scoped context and, once the
handler has returned, writes one line and passes the handler's result on
unchanged.  It contains no `recover`, so a panic of the handler passes
through it. -/
def grpcZapUnaryServerInterceptor : UnaryServerInterceptor :=
  fun ctx req info handler =>
    let h := handler (newLoggerForCall ctx info) req
    match h.out with
    | Outcome.panicked p => { log := h.log, out := Outcome.panicked p }
    | Outcome.returned (resp, err) =>
        { log := h.log ++ [finishedEntry err], out := Outcome.returned (resp, err) }

/-- The function `recoverFrom` of `grpc_recovery`: without a custom handler
the panic payload is formatted into an `Internal` status error, with one the
handler decides. -/
def recoverFrom (ctx : Context) (p : Any) (r : Option RecoveryHandlerFuncContext) :
    List Entry × Option Err :=
  match r with
  | none => ([], statusErrorf Code.Internal (formatAny p))
  | some f => f ctx p

/-- The interceptor `grpc_recovery.UnaryServerInterceptor(opts...)`, where
`r` is the handler installed by `WithRecoveryHandlerContext` (if any): the
handler's result is passed on unchanged; when the handler panics, the deferred
`recover` turns the panic into the return value `(nil, recoverFrom ...)`. -/
def grpcRecoveryUnaryServerInterceptor (r : Option RecoveryHandlerFuncContext) :
    UnaryServerInterceptor :=
  fun ctx req _info handler =>
    let h := handler ctx req
    match h.out with
    | Outcome.returned v => { log := h.log, out := Outcome.returned v }
    | Outcome.panicked p =>
        let rec_ := recoverFrom ctx p r
        { log := h.log ++ rec_.1, out := Outcome.returned (none, rec_.2) }

/-- The function `chainUnaryInterceptors` of grpc: the first interceptor is
the outermost, each one receives as its handler the rest of the chain around
the final handler. -/
def chainUnaryInterceptors : List UnaryServerInterceptor → UnaryServerInterceptor
  | [] => fun ctx req _info handler => handler ctx req
  | i :: rest => fun ctx req info handler =>
      i ctx req info (fun c r => chainUnaryInterceptors rest c r info handler)

/-- A `grpc.ServerOption`, of the one kind `main` passes. -/
inductive ServerOption where
  | ChainUnaryInterceptor (interceptors : List UnaryServerInterceptor)

/-- The state of a `grpc.Server` that the program touches: the chained unary
interceptors and the registered implementations of the Summ service. -/
structure Server where
  chainUnaryInts : List UnaryServerInterceptor
  services : List (Option summService)

/-- The function `grpc.NewServer(opts...)`: the interceptors of all
`ChainUnaryInterceptor` options, in order; no service registered yet. -/
def NewServer (opts : List ServerOption) : Server :=
  { chainUnaryInts := (opts.map fun
      | ServerOption.ChainUnaryInterceptor is => is).flatten
    services := [] }

/-- Modelled from the spec: the generated function
`summv1.RegisterSummServiceServer` is absent from the sources; by the spec the
service registers itself with the server. -/
def RegisterSummServiceServer (server : Server) (srv : Option summService) : Server :=
  { server with services := server.services ++ [srv] }

/-- The function `Init(server)` of `summ.service.go`: registers the address of
a fresh `summService{}`. -/
def Init (server : Server) : Server :=
  RegisterSummServiceServer server
    (some { UnimplementedSummServiceServer := {} })

/-- The unary handler through which the server invokes a registered `Sum`
method. -/
def sumHandler (srv : Option summService) : UnaryHandler :=
  fun ctx req => { log := [], out := summService.Sum srv ctx req }

/-! ## The bootstrap (`main.go`) -/

/-- The closure `panicHandler` of `main`: it writes the error line
"panic recovered" with the payload under the key "panic", and returns
`status.Errorf(codes.Internal, "internal server error")`. -/
def panicHandler : RecoveryHandlerFuncContext :=
  fun _ctx p =>
    ([{ level := Level.Error, msg := "panic recovered", fields := [Field.any "panic" p] }],
     statusErrorf Code.Internal "internal server error")

/-- The server `main` constructs: `grpc.NewServer` with the one option
`grpc.ChainUnaryInterceptor(grpc_zap.UnaryServerInterceptor(logger),
grpc_recovery.UnaryServerInterceptor(WithRecoveryHandlerContext(panicHandler)))`. -/
def newMainServer : Server :=
  NewServer [ServerOption.ChainUnaryInterceptor
    [grpcZapUnaryServerInterceptor,
     grpcRecoveryUnaryServerInterceptor (some panicHandler)]]

/-- A `net.Listener`, by an identifier. -/
structure Listener where
  id : Nat
  deriving DecidableEq, Repr

/-- What the surroundings answer to the two calls `main` branches on:
`net.Listen(network, address)` returns a listener or an error; `Serve` on a
listener either never returns (`none`) or returns nil or an error. -/
structure Env where
  listen : String → String → Except Err Listener
  serve : Listener → Option (Option Err)

/-- An observable step of `main`. -/
inductive Event where
  | newProduction
  | replaceGrpcLoggerV2
  | newServer (server : Server)
  | registerService (server : Server)
  | listen (network : String) (address : String)
  | log (entry : Entry)
  | serve (server : Server) (listener : Listener)
  | sync
  | osExit (code : Nat)

/-- The method `logger.Info`. -/
def loggerInfo (msg : String) (fields : List Field) : List Event :=
  [Event.log { level := Level.Info, msg := msg, fields := fields }]

/-- The method `logger.Fatal`: it writes the entry and then calls
`os.Exit(1)`, so nothing after it runs, deferred calls included. -/
def loggerFatal (msg : String) (fields : List Field) : List Event :=
  [Event.log { level := Level.Fatal, msg := msg, fields := fields }, Event.osExit 1]

/-- The function `main`, as the sequence of its observable steps in the
surroundings `env` (the logger is taken to be constructed; the error result
of `zap.NewProduction` is discarded by the program). -/
def main (env : Env) : List Event :=
  let server := newMainServer
  let t := [Event.newProduction, Event.replaceGrpcLoggerV2, Event.newServer server]
  let server := Init server
  let t := t ++ [Event.registerService server]
  let t := t ++ [Event.listen "tcp" ":5335"]
  match env.listen "tcp" ":5335" with
  | Except.error err => t ++ loggerFatal "failed to listen" [Field.error err]
  | Except.ok listener =>
      let t := t ++ loggerInfo "gRPC server started" [Field.string "addr" ":5335"]
      let t := t ++ [Event.serve server listener]
      match env.serve listener with
      | none => t
      | some (some err) => t ++ loggerFatal "failed to serve" [Field.error err]
      | some none => t ++ loggerInfo "gRPC server stopped" [] ++ [Event.sync]

/-! ## Serving calls -/

/-- Whether the server process is alive. -/
inductive ProcState where
  | serving
  | crashed (p : Any)
  deriving DecidableEq, Repr

/-- An inbound unary call, with the handler it is routed to. -/
structure Call where
  ctx : Context
  req : Option SumRequest
  info : UnaryServerInfo
  handler : UnaryHandler

/-- What comes of one call: the lines logged and the reply sent, if any. -/
structure Served where
  log : List Entry
  reply : Option (Reply SumResponse)
  deriving DecidableEq, Repr

/-- One call on a server.  A live server runs the handler inside its
interceptor chain; a panic that leaves the chain is not recovered by grpc and
terminates the process.  A terminated process serves nothing. -/
def serveCall (server : Server) (st : ProcState) (c : Call) : ProcState × Served :=
  match st with
  | ProcState.crashed p => (ProcState.crashed p, { log := [], reply := none })
  | ProcState.serving =>
      let r := chainUnaryInterceptors server.chainUnaryInts c.ctx c.req c.info c.handler
      match r.out with
      | Outcome.returned v => (ProcState.serving, { log := r.log, reply := some v })
      | Outcome.panicked p => (ProcState.crashed p, { log := r.log, reply := none })

/-- A sequence of calls on a server, one after the other. -/
def serveCalls (server : Server) : ProcState → List Call → ProcState × List Served
  | st, [] => (st, [])
  | st, c :: cs =>
      let r := serveCall server st c
      let rest := serveCalls server r.1 cs
      (rest.1, r.2 :: rest.2)

/-- The error every recovered panic is answered with. -/
def internalServerError : Err := Err.status Code.Internal "internal server error"

/-- The line `panicHandler` writes for the payload `p`. -/
def panicRecoveredEntry (p : Any) : Entry :=
  { level := Level.Error, msg := "panic recovered", fields := [Field.any "panic" p] }

/-- A handler that panics with payload `p` on every call. -/
def faultyHandler (p : Any) : UnaryHandler :=
  fun _ctx _req => { log := [], out := Outcome.panicked p }

/-- A call of `Sum` on the registered service. -/
def sumCall (a b : Int) : Call :=
  { ctx := [], req := some { A := a, B := b }, info := { FullMethod := "Sum" },
    handler := sumHandler (some { UnimplementedSummServiceServer := {} }) }

/-- A call whose handler panics with payload `p`. -/
def faultyCall (p : Any) : Call :=
  { ctx := [], req := none, info := { FullMethod := "Sum" }, handler := faultyHandler p }

/-! ## Observations on a run of `main` -/

/-- The kind of an observable step, without the server snapshot and the
fields of a log line. -/
inductive Step where
  | newProduction
  | replaceGrpcLoggerV2
  | newServer
  | registerService
  | listen (network : String) (address : String)
  | log (level : Level) (msg : String)
  | serve (listener : Listener)
  | sync
  | osExit (code : Nat)
  deriving DecidableEq, Repr

/-- The kind of an event. -/
def Event.step : Event → Step
  | .newProduction => Step.newProduction
  | .replaceGrpcLoggerV2 => Step.replaceGrpcLoggerV2
  | .newServer _ => Step.newServer
  | .registerService _ => Step.registerService
  | .listen n a => Step.listen n a
  | .log e => Step.log e.level e.msg
  | .serve _ l => Step.serve l
  | .sync => Step.sync
  | .osExit c => Step.osExit c

/-- The steps of a run, in order. -/
def steps (t : List Event) : List Step := t.map Event.step

/-- The log lines of a run, in order. -/
def logged (t : List Event) : List Entry :=
  t.filterMap fun
    | Event.log e => some e
    | _ => none

/-- The calls of `Serve` in a run, in order: the server served, as it is at
that moment, and the listener. -/
def served (t : List Event) : List (Server × Listener) :=
  t.filterMap fun
    | Event.serve s l => some (s, l)
    | _ => none

/-- The calls of `net.Listen` in a run, in order. -/
def listens (t : List Event) : List (String × String) :=
  t.filterMap fun
    | Event.listen n a => some (n, a)
    | _ => none

/-- The steps every run of `main` starts with, up to the bind. -/
def bootstrapSteps : List Step :=
  [Step.newProduction, Step.replaceGrpcLoggerV2, Step.newServer, Step.registerService,
   Step.listen "tcp" ":5335"]

/-- Surroundings in which the bind fails with `err`. -/
def envListenFails (err : Err) : Env :=
  { listen := fun _ _ => Except.error err, serve := fun _ => none }

/-- Surroundings in which the bind yields listener `l` and `Serve` ends as
`r` says. -/
def envListenOk (l : Listener) (r : Option (Option Err)) : Env :=
  { listen := fun _ _ => Except.ok l, serve := fun _ => r }

/-! ## Arithmetic of `int64` -/

theorem wrapInt64_isInt64 (x : Int) : isInt64 (wrapInt64 x) := by
  unfold isInt64 wrapInt64 minInt64 maxInt64
  have h1 : 0 ≤ (x + 2 ^ 63) % (2 ^ 64 : Int) := Int.emod_nonneg _ (by norm_num)
  have h2 : (x + 2 ^ 63) % (2 ^ 64 : Int) < 2 ^ 64 := Int.emod_lt_of_pos _ (by norm_num)
  constructor <;> omega

theorem wrapInt64_congr (x : Int) : (2 ^ 64 : Int) ∣ (wrapInt64 x - x) := by
  unfold wrapInt64
  have h := Int.emod_add_ediv (x + 2 ^ 63) (2 ^ 64)
  exact ⟨-((x + 2 ^ 63) / 2 ^ 64), by linarith⟩

theorem wrapInt64_of_isInt64 (x : Int) (h : isInt64 x) : wrapInt64 x = x := by
  unfold isInt64 minInt64 maxInt64 at h
  unfold wrapInt64
  have h1 : (x + 2 ^ 63) % (2 ^ 64 : Int) = x + 2 ^ 63 :=
    Int.emod_eq_of_lt (by omega) (by omega)
  omega

theorem isInt64_unique (r r' x : Int) (hr : isInt64 r) (hr' : isInt64 r')
    (h : (2 ^ 64 : Int) ∣ (r - x)) (h' : (2 ^ 64 : Int) ∣ (r' - x)) : r' = r := by
  unfold isInt64 minInt64 maxInt64 at hr hr'
  have hd : (2 ^ 64 : Int) ∣ (r' - r) := by
    have := Int.dvd_sub h' h
    simpa using this
  obtain ⟨k, hk⟩ := hd
  have hk1 : k = 0 := by
    by_contra hne
    rcases Int.lt_or_gt_of_ne hne with hlt | hgt
    · have : k ≤ -1 := by omega
      nlinarith
    · have : 1 ≤ k := by omega
      nlinarith
  subst hk1
  omega

/-! ## The Sum handler -/

/-- C1: for all `int64` operands `a` and `b`, `Sum` on a request with `A = a`
and `B = b` returns a response whose `Result` is the one `int64` value
congruent to `a + b` modulo `2^64`: it is `a + b` when that is in range,
`a + b - 2^64` on overflow and `a + b + 2^64` on underflow. -/
theorem Sum_result_wraparound (s : Option summService) (ctx : Context) (a b : Int)
    (ha : isInt64 a) (hb : isInt64 b) :
    ∃ r : Int,
      summService.Sum s ctx (some { A := a, B := b })
        = Outcome.returned (some { Result := r }, none) ∧
      isInt64 r ∧ (2 ^ 64 : Int) ∣ (r - (a + b)) ∧
      (∀ r' : Int, isInt64 r' → (2 ^ 64 : Int) ∣ (r' - (a + b)) → r' = r) ∧
      r = (if maxInt64 < a + b then a + b - 2 ^ 64
           else if a + b < minInt64 then a + b + 2 ^ 64 else a + b) := by
  refine ⟨wrapInt64 (a + b), rfl, wrapInt64_isInt64 _, wrapInt64_congr _, ?_, ?_⟩
  · intro r' hr' hd
    exact isInt64_unique _ _ _ (wrapInt64_isInt64 _) hr' (wrapInt64_congr _) hd
  · unfold isInt64 minInt64 maxInt64 at ha hb
    unfold wrapInt64 minInt64 maxInt64
    split_ifs <;> omega

theorem Sum_result_wraparound_witness :
    isInt64 maxInt64 ∧ isInt64 1 ∧
    ∃ r : Int,
      summService.Sum none [] (some { A := maxInt64, B := 1 })
        = Outcome.returned (some { Result := r }, none) ∧
      isInt64 r ∧ (2 ^ 64 : Int) ∣ (r - (maxInt64 + 1)) ∧
      (∀ r' : Int, isInt64 r' → (2 ^ 64 : Int) ∣ (r' - (maxInt64 + 1)) → r' = r) ∧
      r = (if maxInt64 < maxInt64 + 1 then maxInt64 + 1 - 2 ^ 64
           else if maxInt64 + 1 < minInt64 then maxInt64 + 1 + 2 ^ 64
           else maxInt64 + 1) :=
  ⟨by decide, by decide, Sum_result_wraparound none [] maxInt64 1 (by decide) (by decide)⟩

/-- C2: the concrete results `Sum(2, 3) = 5`, `Sum(-1, 1) = 0`,
`Sum(0, 0) = 0` and `Sum(max_int64, 1) = min_int64`, with
`max_int64 = 2^63 - 1` and `min_int64 = -2^63`. -/
theorem Sum_concrete_results :
    summService.Sum (some { UnimplementedSummServiceServer := {} }) []
        (some { A := 2, B := 3 })
      = Outcome.returned (some { Result := 5 }, none) ∧
    summService.Sum (some { UnimplementedSummServiceServer := {} }) []
        (some { A := -1, B := 1 })
      = Outcome.returned (some { Result := 0 }, none) ∧
    summService.Sum (some { UnimplementedSummServiceServer := {} }) []
        (some { A := 0, B := 0 })
      = Outcome.returned (some { Result := 0 }, none) ∧
    summService.Sum (some { UnimplementedSummServiceServer := {} }) []
        (some { A := 2 ^ 63 - 1, B := 1 })
      = Outcome.returned (some { Result := -(2 ^ 63) }, none) ∧
    maxInt64 = 2 ^ 63 - 1 ∧ minInt64 = -(2 ^ 63) := by
  refine ⟨?_, ?_, ?_, ?_, rfl, rfl⟩ <;> decide

/-- The nil branch of the embedding: a direct call of `Sum` on a nil request
pointer panics on reading `params.A`.  The gRPC dispatch decodes every call
into a fresh message, so the registered handler is not called this way. -/
theorem Sum_nil_request_panics :
    summService.Sum (some { UnimplementedSummServiceServer := {} }) [] none
      = Outcome.panicked nilDereference ∧
    ¬ ∃ reply : Reply SumResponse,
      summService.Sum (some { UnimplementedSummServiceServer := {} }) [] none
        = Outcome.returned reply := by
  refine ⟨rfl, ?_⟩
  rintro ⟨reply, h⟩
  cases h

/-- C3: the `Sum` handler cannot fail: for every receiver, every context and
every request message, whatever its two operands, `Sum` returns a present
response together with a nil error, the response's `Result` is an `int64`
(overflow wraps), and the call does not panic. -/
theorem Sum_total_on_requests (s : Option summService) (ctx : Context) (p : SumRequest) :
    ∃ resp : SumResponse,
      summService.Sum s ctx (some p) = Outcome.returned (some resp, none) ∧
      isInt64 resp.Result ∧
      ∀ q : Any, summService.Sum s ctx (some p) ≠ Outcome.panicked q := by
  refine ⟨{ Result := addInt64 p.A p.B }, rfl, wrapInt64_isInt64 _, ?_⟩
  intro q h
  cases h

/-- C9: the reply of `Sum` is a function of the two operands only: two calls
with any receivers, any contexts and requests that agree on `A` and on `B`
return the same reply; the handler writes no log line; and a `summService`
value is determined by its embedded registration stub, which carries no data,
so any two service values are equal. -/
theorem Sum_stateless (s₁ s₂ : Option summService) (ctx₁ ctx₂ : Context)
    (r₁ r₂ : SumRequest) (hA : r₁.A = r₂.A) (hB : r₁.B = r₂.B) :
    summService.Sum s₁ ctx₁ (some r₁) = summService.Sum s₂ ctx₂ (some r₂) ∧
    (∃ f : Int → Int → Int, ∀ (s : Option summService) (ctx : Context) (r : SumRequest),
      summService.Sum s ctx (some r)
        = Outcome.returned (some { Result := f r.A r.B }, none)) ∧
    (sumHandler s₁ ctx₁ (some r₁)).log = [] ∧
    (∀ x y : summService,
      x.UnimplementedSummServiceServer = y.UnimplementedSummServiceServer → x = y) ∧
    (∀ x y : summService, x = y) := by
  refine ⟨?_, ⟨addInt64, fun _ _ _ => rfl⟩, rfl, ?_, ?_⟩
  · simp [summService.Sum, hA, hB]
  · intro x y h
    cases x; cases y; cases h; rfl
  · intro x y
    cases x; cases y; rfl

theorem Sum_stateless_witness :
    summService.Sum none [] (some { A := 7, B := -9 })
      = summService.Sum (some { UnimplementedSummServiceServer := {} }) ["deadline"]
          (some { A := 7, B := -9 }) :=
  (Sum_stateless none (some { UnimplementedSummServiceServer := {} }) [] ["deadline"]
    { A := 7, B := -9 } { A := 7, B := -9 } rfl rfl).1

/-! ## Panic recovery -/

theorem mainServer_chain (ctx : Context) (req : Option SumRequest) (info : UnaryServerInfo)
    (h : UnaryHandler) :
    chainUnaryInterceptors (Init newMainServer).chainUnaryInts ctx req info h
      = grpcZapUnaryServerInterceptor ctx req info
          (fun c r => grpcRecoveryUnaryServerInterceptor (some panicHandler) c r info h) :=
  rfl

theorem recovery_returns (r : Option RecoveryHandlerFuncContext) (ctx : Context)
    (req : Option SumRequest) (info : UnaryServerInfo) (h : UnaryHandler) :
    ∃ v, (grpcRecoveryUnaryServerInterceptor r ctx req info h).out = Outcome.returned v := by
  unfold grpcRecoveryUnaryServerInterceptor
  cases hout : (h ctx req).out with
  | returned v => exact ⟨v, by simp [hout]⟩
  | panicked p => exact ⟨(none, (recoverFrom ctx p r).2), by simp [hout]⟩

theorem mainServer_chain_returns (ctx : Context) (req : Option SumRequest)
    (info : UnaryServerInfo) (h : UnaryHandler) :
    ∃ v, (chainUnaryInterceptors (Init newMainServer).chainUnaryInts ctx req info h).out
      = Outcome.returned v := by
  rw [mainServer_chain]
  obtain ⟨v, hv⟩ := recovery_returns (some panicHandler) (newLoggerForCall ctx info) req info h
  obtain ⟨resp, err⟩ := v
  refine ⟨(resp, err), ?_⟩
  simp only [grpcZapUnaryServerInterceptor, hv]

theorem mainServer_chain_panic (ctx : Context) (req : Option SumRequest)
    (info : UnaryServerInfo) (h : UnaryHandler) (p : Any)
    (hp : (h (newLoggerForCall ctx info) req).out = Outcome.panicked p) :
    (chainUnaryInterceptors (Init newMainServer).chainUnaryInts ctx req info h).out
      = Outcome.returned (none, some internalServerError) ∧
    (chainUnaryInterceptors (Init newMainServer).chainUnaryInts ctx req info h).log
      = (h (newLoggerForCall ctx info) req).log
          ++ [panicRecoveredEntry p, finishedEntry (some internalServerError)] := by
  rw [mainServer_chain]
  simp [grpcZapUnaryServerInterceptor, grpcRecoveryUnaryServerInterceptor, hp, recoverFrom,
    panicHandler, statusErrorf, internalServerError, panicRecoveredEntry]

theorem serveCall_mainServer_serving (c : Call) :
    (serveCall (Init newMainServer) ProcState.serving c).1 = ProcState.serving := by
  obtain ⟨v, hv⟩ := mainServer_chain_returns c.ctx c.req c.info c.handler
  simp [serveCall, hv]

theorem serveCalls_mainServer_serving (cs : List Call) :
    (serveCalls (Init newMainServer) ProcState.serving cs).1 = ProcState.serving := by
  induction cs with
  | nil => rfl
  | cons c cs ih =>
      simp only [serveCalls]
      rw [serveCall_mainServer_serving]
      exact ih

theorem serveCalls_mainServer_append (xs ys : List Call) :
    (serveCalls (Init newMainServer) ProcState.serving (xs ++ ys)).2
      = (serveCalls (Init newMainServer) ProcState.serving xs).2
          ++ (serveCalls (Init newMainServer) ProcState.serving ys).2 := by
  induction xs with
  | nil => rfl
  | cons c cs ih =>
      simp only [List.cons_append, serveCalls]
      rw [serveCall_mainServer_serving]
      simp [ih]

/-- Without the recovery interceptor the same panic ends the process: a server
built with the logging interceptor alone crashes on a faulty call and serves
nothing afterwards. -/
theorem serveCalls_without_recovery_crashes (p : Any) (a b : Int) :
    serveCalls (NewServer [ServerOption.ChainUnaryInterceptor [grpcZapUnaryServerInterceptor]])
        ProcState.serving [faultyCall p, sumCall a b]
      = (ProcState.crashed p, [{ log := [], reply := none }, { log := [], reply := none }]) :=
  rfl

/-- C4: for every context and payload, `panicHandler` returns the non-nil
error with status code `Internal` and message "internal server error", and
writes the one log line "panic recovered" that carries the payload; the
returned error is the same for any two contexts and payloads. -/
theorem panicHandler_generic_error (ctx : Context) (p : Any) :
    (panicHandler ctx p).2 = some (Err.status Code.Internal "internal server error") ∧
    statusCode (panicHandler ctx p).2 = Code.Internal ∧
    (panicHandler ctx p).1
      = [{ level := Level.Error, msg := "panic recovered",
           fields := [Field.any "panic" p] }] ∧
    (∀ (ctx' : Context) (p' : Any), (panicHandler ctx' p').2 = (panicHandler ctx p).2) :=
  ⟨rfl, rfl, rfl, fun _ _ => rfl⟩

/-- C5: on the server `main` configures, a call whose handler panics is
answered with a nil response and the generic `Internal` error, the process is
still serving after it (after any sequence of calls), and the calls before and
after it are served exactly as in the run without the faulting call. -/
theorem panic_never_crashes (before after : List Call) (c : Call) (p : Any)
    (hp : (c.handler (newLoggerForCall c.ctx c.info) c.req).out = Outcome.panicked p) :
    (serveCall (Init newMainServer) ProcState.serving c).1 = ProcState.serving ∧
    (serveCall (Init newMainServer) ProcState.serving c).2.reply
      = some (none, some (Err.status Code.Internal "internal server error")) ∧
    (serveCalls (Init newMainServer) ProcState.serving (before ++ c :: after)).1
      = ProcState.serving ∧
    (serveCalls (Init newMainServer) ProcState.serving (before ++ c :: after)).2
      = (serveCalls (Init newMainServer) ProcState.serving before).2
          ++ (serveCall (Init newMainServer) ProcState.serving c).2
          :: (serveCalls (Init newMainServer) ProcState.serving after).2 ∧
    (serveCalls (Init newMainServer) ProcState.serving (before ++ after)).2
      = (serveCalls (Init newMainServer) ProcState.serving before).2
          ++ (serveCalls (Init newMainServer) ProcState.serving after).2 := by
  refine ⟨serveCall_mainServer_serving c, ?_, serveCalls_mainServer_serving _, ?_,
    serveCalls_mainServer_append _ _⟩
  · have h := (mainServer_chain_panic c.ctx c.req c.info c.handler p hp).1
    simp [serveCall, h, internalServerError]
  · rw [serveCalls_mainServer_append]
    simp only [serveCalls]
    rw [serveCall_mainServer_serving]

theorem panic_never_crashes_witness :
    (faultyCall (Any.str "boom")).handler
        (newLoggerForCall (faultyCall (Any.str "boom")).ctx (faultyCall (Any.str "boom")).info)
        (faultyCall (Any.str "boom")).req
      = { log := [], out := Outcome.panicked (Any.str "boom") } ∧
    (serveCalls (Init newMainServer) ProcState.serving
        ([sumCall 2 3] ++ faultyCall (Any.str "boom") :: [sumCall 4 5])).2
      = [{ log := [finishedEntry none], reply := some (some { Result := 5 }, none) },
         { log := [panicRecoveredEntry (Any.str "boom"),
                   finishedEntry (some internalServerError)],
           reply := some (none, some internalServerError) },
         { log := [finishedEntry none], reply := some (some { Result := 9 }, none) }] :=
  ⟨rfl, (panic_never_crashes [sumCall 2 3] [sumCall 4 5] (faultyCall (Any.str "boom"))
    (Any.str "boom") rfl).2.2.2.1.trans (by decide)⟩

/-- C8: the server of `main` has exactly two unary interceptors, the logging
interceptor first and the recovery interceptor second; every call runs as the
logging interceptor around the recovery interceptor around the handler; and
when the handler panics, the handler the logging interceptor calls has already
returned the `Internal` error, so the "panic recovered" line precedes the
"finished unary call" line, which reports code `Internal`. -/
theorem mainServer_interceptor_order (ctx : Context) (req : Option SumRequest)
    (info : UnaryServerInfo) (h : UnaryHandler) (p : Any)
    (hp : (h (newLoggerForCall ctx info) req).out = Outcome.panicked p) :
    newMainServer.chainUnaryInts
      = [grpcZapUnaryServerInterceptor,
         grpcRecoveryUnaryServerInterceptor (some panicHandler)] ∧
    newMainServer.chainUnaryInts.length = 2 ∧
    (Init newMainServer).chainUnaryInts = newMainServer.chainUnaryInts ∧
    (∀ (ctx' : Context) (req' : Option SumRequest) (info' : UnaryServerInfo)
        (g : UnaryHandler),
      chainUnaryInterceptors newMainServer.chainUnaryInts ctx' req' info' g
        = grpcZapUnaryServerInterceptor ctx' req' info'
            (fun c r =>
              grpcRecoveryUnaryServerInterceptor (some panicHandler) c r info' g)) ∧
    (grpcRecoveryUnaryServerInterceptor (some panicHandler)
        (newLoggerForCall ctx info) req info h).out
      = Outcome.returned (none, some (Err.status Code.Internal "internal server error")) ∧
    (chainUnaryInterceptors newMainServer.chainUnaryInts ctx req info h).out
      = Outcome.returned (none, some (Err.status Code.Internal "internal server error")) ∧
    (chainUnaryInterceptors newMainServer.chainUnaryInts ctx req info h).log
      = (h (newLoggerForCall ctx info) req).log
          ++ [{ level := Level.Error, msg := "panic recovered",
                fields := [Field.any "panic" p] },
              { level := Level.Error, msg := "finished unary call with code Internal",
                fields := [Field.error (Err.status Code.Internal "internal server error"),
                           Field.string "grpc.code" "Internal"] }] := by
  have hc := mainServer_chain_panic ctx req info h p hp
  refine ⟨rfl, rfl, rfl, fun _ _ _ _ => rfl, ?_, hc.1, ?_⟩
  · simp [grpcRecoveryUnaryServerInterceptor, hp, recoverFrom, panicHandler, statusErrorf]
  · rw [show newMainServer.chainUnaryInts = (Init newMainServer).chainUnaryInts from rfl, hc.2]
    rfl

theorem mainServer_interceptor_order_witness :
    (faultyHandler (Any.int 7) (newLoggerForCall [] { FullMethod := "Sum" }) none).out
      = Outcome.panicked (Any.int 7) ∧
    (chainUnaryInterceptors newMainServer.chainUnaryInts [] none { FullMethod := "Sum" }
        (faultyHandler (Any.int 7))).log
      = [panicRecoveredEntry (Any.int 7), finishedEntry (some internalServerError)] :=
  ⟨rfl, (mainServer_interceptor_order [] none { FullMethod := "Sum" }
    (faultyHandler (Any.int 7)) (Any.int 7) rfl).2.2.2.2.2.2⟩

/-! ## The bootstrap -/

theorem main_of_listen_error (env : Env) (err : Err)
    (h : env.listen "tcp" ":5335" = Except.error err) :
    main env
      = [Event.newProduction, Event.replaceGrpcLoggerV2, Event.newServer newMainServer,
         Event.registerService (Init newMainServer), Event.listen "tcp" ":5335",
         Event.log { level := Level.Fatal, msg := "failed to listen",
                     fields := [Field.error err] },
         Event.osExit 1] := by
  simp [main, h, loggerFatal]

theorem main_of_listen_ok (env : Env) (l : Listener)
    (h : env.listen "tcp" ":5335" = Except.ok l) :
    main env
      = [Event.newProduction, Event.replaceGrpcLoggerV2, Event.newServer newMainServer,
         Event.registerService (Init newMainServer), Event.listen "tcp" ":5335",
         Event.log { level := Level.Info, msg := "gRPC server started",
                     fields := [Field.string "addr" ":5335"] },
         Event.serve (Init newMainServer) l]
        ++ (match env.serve l with
            | none => []
            | some (some err) =>
                [Event.log { level := Level.Fatal, msg := "failed to serve",
                             fields := [Field.error err] },
                 Event.osExit 1]
            | some none =>
                [Event.log { level := Level.Info, msg := "gRPC server stopped",
                             fields := [] },
                 Event.sync]) := by
  simp only [main, h]
  rcases hs : env.serve l with _ | _ | err <;> simp [loggerFatal, loggerInfo]

/-- C6: when `net.Listen` returns an error, the run of `main` is: the common
start, the one bind, the fatal entry "failed to listen" carrying that error,
and the exit of the process with code 1; `Serve` is not called, the line
"gRPC server started" is not written, and the bind is attempted once. -/
theorem main_listen_failure (env : Env) (err : Err)
    (h : env.listen "tcp" ":5335" = Except.error err) :
    steps (main env)
      = bootstrapSteps ++ [Step.log Level.Fatal "failed to listen", Step.osExit 1] ∧
    logged (main env)
      = [{ level := Level.Fatal, msg := "failed to listen", fields := [Field.error err] }] ∧
    (main env).getLast? = some (Event.osExit 1) ∧
    served (main env) = [] ∧
    (∀ e ∈ logged (main env), e.msg ≠ "gRPC server started") ∧
    listens (main env) = [("tcp", ":5335")] := by
  rw [main_of_listen_error env err h]
  refine ⟨rfl, rfl, rfl, rfl, ?_, rfl⟩
  intro e he
  simp only [logged, List.filterMap_cons, List.filterMap_nil, List.mem_singleton] at he
  subst he
  show "failed to listen" ≠ "gRPC server started"
  decide

theorem main_listen_failure_witness :
    (envListenFails (Err.other "address already in use")).listen "tcp" ":5335"
      = Except.error (Err.other "address already in use") ∧
    steps (main (envListenFails (Err.other "address already in use")))
      = bootstrapSteps ++ [Step.log Level.Fatal "failed to listen", Step.osExit 1] :=
  ⟨rfl, (main_listen_failure (envListenFails (Err.other "address already in use"))
    (Err.other "address already in use") rfl).1⟩

/-- C7: after a successful bind `main` calls `Serve` once, on the server with
the registered service and on the bound listener; the line
"gRPC server stopped" is written exactly when `Serve` returned nil, and the
fatal entry "failed to serve" exactly when it returned an error, in which case
the entry carries that error and the process exits with code 1. -/
theorem main_serve_outcome (env : Env) (l : Listener)
    (h : env.listen "tcp" ":5335" = Except.ok l) :
    served (main env) = [(Init newMainServer, l)] ∧
    ((∃ e ∈ logged (main env), e.msg = "gRPC server stopped") ↔ env.serve l = some none) ∧
    ((∃ e ∈ logged (main env), e.level = Level.Fatal ∧ e.msg = "failed to serve")
      ↔ ∃ err, env.serve l = some (some err)) ∧
    (∀ err, env.serve l = some (some err) →
      steps (main env)
        = bootstrapSteps ++ [Step.log Level.Info "gRPC server started", Step.serve l,
            Step.log Level.Fatal "failed to serve", Step.osExit 1] ∧
      logged (main env)
        = [{ level := Level.Info, msg := "gRPC server started",
             fields := [Field.string "addr" ":5335"] },
           { level := Level.Fatal, msg := "failed to serve",
             fields := [Field.error err] }]) ∧
    (env.serve l = some none →
      steps (main env)
        = bootstrapSteps ++ [Step.log Level.Info "gRPC server started", Step.serve l,
            Step.log Level.Info "gRPC server stopped", Step.sync]) ∧
    (env.serve l = none →
      steps (main env)
        = bootstrapSteps ++ [Step.log Level.Info "gRPC server started", Step.serve l]) := by
  rw [main_of_listen_ok env l h]
  rcases hs : env.serve l with _ | _ | err
  · refine ⟨rfl, ?_, ?_, ?_, ?_, ?_⟩
    · simp [logged]
    · simp [logged]
    · intro err herr; cases herr
    · intro h0; cases h0
    · intro _; rfl
  · refine ⟨rfl, ?_, ?_, ?_, ?_, ?_⟩
    · simp [logged]
    · simp [logged]
    · intro err herr; cases herr
    · intro _; rfl
    · intro h0; cases h0
  · refine ⟨rfl, ?_, ?_, ?_, ?_, ?_⟩
    · simp [logged]
    · simp [logged]
    · intro err2 herr
      cases herr
      exact ⟨rfl, rfl⟩
    · intro h0; cases h0
    · intro h0; cases h0

theorem main_serve_outcome_witness :
    (envListenOk { id := 3 } (some (some (Err.other "closed")))).listen "tcp" ":5335"
      = Except.ok { id := 3 } ∧
    ((∃ e ∈ logged (main (envListenOk { id := 3 } (some (some (Err.other "closed"))))),
        e.level = Level.Fatal ∧ e.msg = "failed to serve")
      ↔ ∃ err, (envListenOk { id := 3 } (some (some (Err.other "closed")))).serve { id := 3 }
          = some (some err)) :=
  ⟨rfl, (main_serve_outcome (envListenOk { id := 3 } (some (some (Err.other "closed"))))
    { id := 3 } rfl).2.2.1⟩

/-- C10: every run of `main` starts with the same steps in the same order:
the server is constructed (no service on it), the Sum service is registered on
it, then the socket is bound on ":5335", once; none of these steps occurs
again.  `Serve` is called at most once, only when the bind has succeeded, on
the listener the bind returned and on the server that holds the registered
service, and directly after the line "gRPC server started". -/
theorem main_bootstrap_order (env : Env) :
    (∃ rest, main env
        = [Event.newProduction, Event.replaceGrpcLoggerV2, Event.newServer newMainServer,
           Event.registerService (Init newMainServer), Event.listen "tcp" ":5335"] ++ rest ∧
      steps (main env) = bootstrapSteps ++ steps rest ∧
      Step.newServer ∉ steps rest ∧ Step.registerService ∉ steps rest ∧
      listens rest = []) ∧
    newMainServer.services = [] ∧
    (Init newMainServer).services = [some { UnimplementedSummServiceServer := {} }] ∧
    (served (main env)).length ≤ 1 ∧
    (∀ (s : Server) (l : Listener), (s, l) ∈ served (main env) →
      env.listen "tcp" ":5335" = Except.ok l ∧ s = Init newMainServer ∧
      ∃ post, steps (main env)
          = bootstrapSteps ++ [Step.log Level.Info "gRPC server started", Step.serve l] ++ post ∧
        ∀ l', Step.serve l' ∉ post) ∧
    (∀ l : Listener, env.listen "tcp" ":5335" = Except.ok l →
      served (main env) = [(Init newMainServer, l)]) := by
  rcases hL : env.listen "tcp" ":5335" with err | l
  · rw [main_of_listen_error env err hL]
    refine ⟨⟨_, rfl, rfl, by simp [steps, Event.step], by simp [steps, Event.step], rfl⟩,
        rfl, rfl, by simp [served], ?_, ?_⟩
    · intro s l hm
      simp [served] at hm
    · intro l hl; cases hl
  · rw [main_of_listen_ok env l hL]
    rcases hs : env.serve l with _ | _ | err
    · refine ⟨⟨_, rfl, rfl, by simp [steps, Event.step], by simp [steps, Event.step], rfl⟩,
        rfl, rfl, by simp [served], ?_, ?_⟩
      · intro s l2 hm
        simp [served] at hm
        obtain ⟨hs1, hl1⟩ := hm
        subst hl1
        exact ⟨rfl, hs1, [], rfl, by simp⟩
      · intro l2 hl; cases hl; rfl
    · refine ⟨⟨_, rfl, rfl, by simp [steps, Event.step], by simp [steps, Event.step], rfl⟩,
        rfl, rfl, by simp [served], ?_, ?_⟩
      · intro s l2 hm
        simp [served] at hm
        obtain ⟨hs1, hl1⟩ := hm
        subst hl1
        exact ⟨rfl, hs1, [Step.log Level.Info "gRPC server stopped", Step.sync], rfl,
          by simp⟩
      · intro l2 hl; cases hl; rfl
    · refine ⟨⟨_, rfl, rfl, by simp [steps, Event.step], by simp [steps, Event.step], rfl⟩,
        rfl, rfl, by simp [served], ?_, ?_⟩
      · intro s l2 hm
        simp [served] at hm
        obtain ⟨hs1, hl1⟩ := hm
        subst hl1
        exact ⟨rfl, hs1, [Step.log Level.Fatal "failed to serve", Step.osExit 1], rfl,
          by simp⟩
      · intro l2 hl; cases hl; rfl

end GrpcDemo
